import Mathlib

/-!
Verification development for the PastoralFamiliar volunteer-registry
application.  The definitions below are shallow embeddings of the
TypeScript source: pure helpers become Lean functions, the React event
handlers become explicit state-transition functions whose external
interactions (database query results, HTTP fetch results, confirm
dialogs) are passed in as parameters, and the list of store operations
a handler issues is returned alongside the new state.
-/

namespace PastoralFamiliar

/-- Embedding of the JS idiom `value.replace(/[^\d]/g, '')` on a character list. -/
def digitsL (s : List Char) : List Char := s.filter Char.isDigit

/-- Embedding of `value.replace(/\D/g, '')` on strings. -/
def digitsOnly (s : String) : String := ⟨digitsL s.data⟩

/-- Embedding of JS `.toUpperCase()` as a character-wise map (the login values
in this application are ASCII). -/
def toUpperStr (s : String) : String := ⟨s.data.map Char.toUpper⟩

/-- Embedding of JS `.trim()`: strip leading and trailing whitespace. -/
def trimStr (s : String) : String :=
  ⟨((s.data.dropWhile Char.isWhitespace).reverse.dropWhile Char.isWhitespace).reverse⟩

/-- The `formatPhone` helper of the MemberForm in `src/unnamed/part_003`
(lines 119-126), acting on the character list of the input string.
`slice(a, b)` is `(drop a).take (b - a)` and `slice(a)` is `drop a`. -/
def formatPhoneL (s : List Char) : List Char :=
  if s = [] then s
  else
    let d := digitsL s
    if d.length ≤ 2 then '(' :: d
    else if d.length ≤ 6 then '(' :: (d.take 2 ++ ')' :: ' ' :: d.drop 2)
    else if d.length ≤ 10 then
      '(' :: (d.take 2 ++ ')' :: ' ' :: ((d.drop 2).take 4 ++ '-' :: d.drop 6))
    else
      '(' :: (d.take 2 ++ ')' :: ' ' :: ((d.drop 2).take 5 ++ '-' :: (d.drop 7).take 4))

/-- `formatPhone` of `src/unnamed/part_003` on strings (empty string is falsy
and returned unchanged; otherwise the digit mask is re-inserted). -/
def formatPhone (s : String) : String := ⟨formatPhoneL s.data⟩

lemma digitsL_all (s : List Char) : ∀ c ∈ digitsL s, c.isDigit := by
  intro c hc
  exact (List.mem_filter.mp hc).2

lemma digitsL_eq_self {t : List Char} (h : ∀ c ∈ t, c.isDigit) : digitsL t = t :=
  List.filter_eq_self.mpr h

lemma digitsL_sub {d t : List Char} (h : ∀ c ∈ d, c.isDigit) (hsub : t ⊆ d) :
    digitsL t = t :=
  digitsL_eq_self fun c hc => h c (hsub hc)

lemma digitsL_cons_mask {c : Char} (t : List Char) (hc : c.isDigit = false) :
    digitsL (c :: t) = digitsL t := by
  simp [digitsL, List.filter_cons, hc]

lemma digitsL_append (a b : List Char) :
    digitsL (a ++ b) = digitsL a ++ digitsL b :=
  List.filter_append ..

/-- The digit content of a formatted phone string: the original digits,
truncated to 11 when there were more. -/
lemma digitsL_formatPhoneL (s : List Char) (hs : s ≠ []) :
    digitsL (formatPhoneL s) =
      if (digitsL s).length ≤ 10 then digitsL s else (digitsL s).take 11 := by
  have hd : ∀ c ∈ digitsL s, c.isDigit := digitsL_all s
  have hpar : Char.isDigit '(' = false := rfl
  have hrpar : Char.isDigit ')' = false := rfl
  have hsp : Char.isDigit ' ' = false := rfl
  have hdash : Char.isDigit '-' = false := rfl
  have htake : ∀ n, digitsL ((digitsL s).take n) = (digitsL s).take n :=
    fun n => digitsL_sub hd (List.take_subset ..)
  have hdrop : ∀ n, digitsL ((digitsL s).drop n) = (digitsL s).drop n :=
    fun n => digitsL_sub hd (List.drop_subset ..)
  have hdt : ∀ n m, digitsL (((digitsL s).drop n).take m) = ((digitsL s).drop n).take m :=
    fun n m => digitsL_sub hd fun c hc => (List.drop_subset ..) ((List.take_subset ..) hc)
  unfold formatPhoneL
  rw [if_neg hs]
  by_cases h2 : (digitsL s).length ≤ 2
  · rw [if_pos h2, if_pos (by omega)]
    rw [digitsL_cons_mask _ hpar, digitsL_eq_self hd]
  · rw [if_neg h2]
    by_cases h6 : (digitsL s).length ≤ 6
    · rw [if_pos h6, if_pos (by omega)]
      rw [digitsL_cons_mask _ hpar, digitsL_append,
        digitsL_cons_mask _ hrpar, digitsL_cons_mask _ hsp,
        htake, hdrop, List.take_append_drop]
    · rw [if_neg h6]
      by_cases h10 : (digitsL s).length ≤ 10
      · rw [if_pos h10, if_pos h10]
        rw [digitsL_cons_mask _ hpar, digitsL_append,
          digitsL_cons_mask _ hrpar, digitsL_cons_mask _ hsp,
          digitsL_append, digitsL_cons_mask _ hdash,
          htake, hdt, hdrop]
        have hsplit : ((digitsL s).drop 2).take 4 ++ ((digitsL s).drop 2).drop 4 =
            (digitsL s).drop 2 := List.take_append_drop ..
        have hdd : ((digitsL s).drop 2).drop 4 = (digitsL s).drop 6 := by
          rw [List.drop_drop]
        rw [← hdd, hsplit, List.take_append_drop]
      · rw [if_neg h10, if_neg h10]
        rw [digitsL_cons_mask _ hpar, digitsL_append,
          digitsL_cons_mask _ hrpar, digitsL_cons_mask _ hsp,
          digitsL_append, digitsL_cons_mask _ hdash,
          htake, hdt, hdt]
        rw [show (11 : Nat) = 7 + 4 by rfl, List.take_add,
          show (7 : Nat) = 2 + 5 by rfl, List.take_add, List.append_assoc]

/-- The formatter never returns the empty list on nonempty input. -/
lemma formatPhoneL_ne_nil (s : List Char) (hs : s ≠ []) : formatPhoneL s ≠ [] := by
  unfold formatPhoneL
  rw [if_neg hs]
  by_cases h2 : (digitsL s).length ≤ 2
  · simp [h2]
  · by_cases h6 : (digitsL s).length ≤ 6
    · simp [h2, h6]
    · by_cases h10 : (digitsL s).length ≤ 10 <;> simp [h2, h6, h10]

/-- Branch form of the formatter on nonempty input. -/
lemma formatPhoneL_of_ne_nil (t : List Char) (ht : t ≠ []) :
    formatPhoneL t =
      if (digitsL t).length ≤ 2 then '(' :: digitsL t
      else if (digitsL t).length ≤ 6 then
        '(' :: ((digitsL t).take 2 ++ ')' :: ' ' :: (digitsL t).drop 2)
      else if (digitsL t).length ≤ 10 then
        '(' :: ((digitsL t).take 2 ++ ')' :: ' ' ::
          (((digitsL t).drop 2).take 4 ++ '-' :: (digitsL t).drop 6))
      else
        '(' :: ((digitsL t).take 2 ++ ')' :: ' ' ::
          (((digitsL t).drop 2).take 5 ++ '-' :: ((digitsL t).drop 7).take 4)) := by
  unfold formatPhoneL
  rw [if_neg ht]

lemma formatPhoneL_idem (s : List Char) :
    formatPhoneL (formatPhoneL s) = formatPhoneL s := by
  by_cases hs : s = []
  · subst hs
    simp [formatPhoneL]
  · have hne := formatPhoneL_ne_nil s hs
    have hdig := digitsL_formatPhoneL s hs
    by_cases h10 : (digitsL s).length ≤ 10
    · -- the digit content is unchanged, so the formatter takes the same branch
      rw [if_pos h10] at hdig
      rw [formatPhoneL_of_ne_nil _ hne, hdig, formatPhoneL_of_ne_nil s hs]
    · -- more than ten digits: the first pass truncates to exactly eleven
      rw [if_neg h10] at hdig
      have hlen : ((digitsL s).take 11).length = 11 := by
        rw [List.length_take]
        omega
      rw [formatPhoneL_of_ne_nil _ hne, hdig, hlen]
      rw [if_neg (by omega), if_neg (by omega), if_neg (by omega)]
      have ht2 : ((digitsL s).take 11).take 2 = (digitsL s).take 2 := by
        rw [List.take_take]
        norm_num
      have hd2 : (((digitsL s).take 11).drop 2).take 5 = ((digitsL s).drop 2).take 5 := by
        rw [List.drop_take, List.take_take]
        norm_num
      have hd7 : (((digitsL s).take 11).drop 7).take 4 = ((digitsL s).drop 7).take 4 := by
        rw [List.drop_take, List.take_take]
        norm_num
      rw [ht2, hd2, hd7, formatPhoneL_of_ne_nil s hs]
      rw [if_neg (by omega), if_neg (by omega), if_neg h10]

/-- Marital-status enum from `src/types.ts`. -/
inductive MaritalStatus
  | SOLTEIRO
  | CASADO
  | VIUVO
  | SEPARADO
deriving Repr, DecidableEq

/-- Modelled from the spec: the updated `types.ts` with the `Role` enum is not
under `src/` (only the old revision is); section 3 of the spec fixes the enum
as AGENTE | COORDENADOR, matching every use in `src/App.tsx`. -/
inductive Role
  | AGENTE
  | COORDENADOR
deriving Repr, DecidableEq

/-- View union type from `src/types.ts`. -/
inductive View
  | LIST
  | FORM
  | REPORTS
  | ABOUT
deriving Repr, DecidableEq

/-- Modelled from the spec: the updated `types.ts` Member interface (with
login, weddingDate, hasVehicle, vehicleModel, sector and a `Role`-typed role)
is not under `src/`; the field set follows section 3 of the spec and the field
accesses in `src/App.tsx` and `src/unnamed/part_003`.  Optional string fields
are plain strings with the empty string standing for undefined (both are falsy
under every operation the handlers apply to them); `id = 0` stands for the
absent id of a not-yet-saved record. -/
structure Member where
  id : Nat
  login : String
  photo : String
  fullName : String
  birthDate : String
  maritalStatus : MaritalStatus
  spouseName : String
  weddingDate : String
  phone : String
  email : String
  cep : String
  street : String
  neighborhood : String
  city : String
  state : String
  hasVehicle : Bool
  vehicleModel : String
  parish : String
  community : String
  sector : String
  joinDate : String
  notes : String
  role : Role
deriving Repr, DecidableEq

/-! ### Record Schema Validator (`src/components/MemberForm.tsx`) -/

/-- The candidate record of the MemberForm in `src/components/MemberForm.tsx`
(a `Partial<Member>` over the old `src/types.ts` Member, which has no
weddingDate, login, hasVehicle or sector field).  String fields use the empty
string for undefined; `maritalStatus` keeps the Option to reflect
`Partial`. -/
structure FormState where
  fullName : String
  photo : String
  birthDate : String
  maritalStatus : Option MaritalStatus
  spouseName : String
  phone : String
  email : String
  cep : String
  street : String
  neighborhood : String
  city : String
  state : String
  parish : String
  community : String
  role : String
  joinDate : String
  notes : String
deriving Repr, DecidableEq

def nonSpace (c : Char) : Bool := !c.isWhitespace

/-- Executable semantics of `/\S+@\S+\.\S+/.test(email)` from `validate`:
a match exists exactly when some position q holds a commercial at preceded by
a non-space character, and some later position r holds a dot with only
non-space characters strictly between q and r and a non-space character right
after r. -/
def emailTest (s : String) : Bool :=
  let cs := s.data
  let n := cs.length
  (List.range n).any fun q =>
    decide (1 ≤ q) && (cs.getD q ' ' == '@') && nonSpace (cs.getD (q - 1) ' ') &&
      ((List.range n).any fun r =>
        decide (q + 2 ≤ r) && (cs.getD r ' ' == '.') &&
          ((List.range' (q + 1) (r - (q + 1))).all fun t => nonSpace (cs.getD t ' ')) &&
          decide (r + 1 < n) && nonSpace (cs.getD (r + 1) ' '))

/-- The `requiredFields` array of `validate` (MemberForm.tsx line 121). -/
def requiredFields : List String :=
  ["fullName", "birthDate", "maritalStatus", "phone", "email", "cep", "street",
   "neighborhood", "city", "state", "parish", "community", "role", "joinDate"]

/-- JS truthiness of `formState[field]` for each required field name. -/
def fieldTruthy (f : FormState) : String → Bool
  | "fullName" => f.fullName != ""
  | "birthDate" => f.birthDate != ""
  | "maritalStatus" => f.maritalStatus.isSome
  | "phone" => f.phone != ""
  | "email" => f.email != ""
  | "cep" => f.cep != ""
  | "street" => f.street != ""
  | "neighborhood" => f.neighborhood != ""
  | "city" => f.city != ""
  | "state" => f.state != ""
  | "parish" => f.parish != ""
  | "community" => f.community != ""
  | "role" => f.role != ""
  | "joinDate" => f.joinDate != ""
  | _ => true

/-- `validate` of `src/components/MemberForm.tsx` (lines 119-139): the
`newErrors` mapping as the association list built in source order (required
fields first, then the married/spouse rule, then the email pattern).  Keys are
pairwise distinct by construction, so the association list is a faithful model
of the JS object. -/
def validate (f : FormState) : List (String × String) :=
  (requiredFields.filter (fun n => !fieldTruthy f n)).map
      (fun n => (n, "Este campo é obrigatório."))
    ++ (if f.maritalStatus = some MaritalStatus.CASADO ∧ f.spouseName = "" then
        [("spouseName", "Nome do cônjuge é obrigatório para casados.")] else [])
    ++ (if f.email ≠ "" ∧ emailTest f.email = false then
        [("email", "E-mail inválido.")] else [])

/-- `handleSubmit` of `src/components/MemberForm.tsx` (lines 142-147): the
`onSave` callback receives the record exactly when the freshly computed error
mapping has no keys; the result is the `onSave` argument, or `none` when
submission is blocked. -/
def handleSubmit (f : FormState) : Option FormState :=
  if (validate f).length = 0 then some f else none

/-- `handleSubmit` of the MemberForm in `src/unnamed/part_003` (lines
200-203): it produces no validation mapping and always passes the record to
`onSave`; returned as (onSave argument, produced error mapping). -/
def handleSubmitP3 (a : Member) : Member × List (String × String) :=
  (a, [])

/-! ### Postal Lookup Adapter (`handleCepBlur`, both revisions) -/

/-- The JSON body returned by the viacep lookup. -/
structure CepData where
  erro : Bool
  logradouro : String
  bairro : String
  localidade : String
  uf : String
deriving Repr, DecidableEq

/-- Outcome of the `fetch` call: an HTTP response (with its `ok` flag and
parsed body) or a thrown transport error. -/
inductive CepFetch
  | response (ok : Bool) (data : CepData)
  | failure
deriving Repr, DecidableEq

/-- The four address fields the lookup may touch. -/
structure AddrFields where
  street : String
  neighborhood : String
  city : String
  state : String
deriving Repr, DecidableEq

/-- Component state touched by `handleCepBlur` in
`src/components/MemberForm.tsx`: the `cep` entry of the `errors` mapping and
the address fields of `formState` (no other key is read or written). -/
structure CepStateA where
  cepError : Option String
  addr : AddrFields
deriving Repr, DecidableEq

/-- `handleCepBlur` of `src/components/MemberForm.tsx` (lines 90-116).  The
boolean result records whether the lookup request was issued. -/
def handleCepBlur (raw : String) (res : CepFetch) (st : CepStateA) :
    CepStateA × Bool :=
  let cep := digitsOnly raw
  if cep.length ≠ 8 then (st, false)
  else
    match res with
    | CepFetch.response _ data =>
        if data.erro = false then
          ({ cepError := none
             addr := ⟨data.logradouro, data.bairro, data.localidade, data.uf⟩ }, true)
        else
          ({ cepError := some "CEP não encontrado."
             addr := ⟨"", "", "", ""⟩ }, true)
    | CepFetch.failure =>
        ({ st with cepError := some "Erro ao buscar CEP." }, true)

/-- Component state touched by `handleCepBlur` in `src/unnamed/part_003`:
`cepError`, `isFetchingCep` and the address fields of `agent`. -/
structure CepStateB where
  cepError : Option String
  isFetchingCep : Bool
  addr : AddrFields
deriving Repr, DecidableEq

/-- `handleCepBlur` of `src/unnamed/part_003` (lines 137-169).  `setCepError(null)`
runs before the length guard; a non-ok HTTP response throws and lands in the
same catch block as a transport failure.  The boolean result records whether
the lookup request was issued. -/
def handleCepBlurP3 (raw : String) (res : CepFetch) (st : CepStateB) :
    CepStateB × Bool :=
  let cep := digitsOnly raw
  let st0 := { st with cepError := none }
  if cep.length ≠ 8 then
    (if cep.length > 0 then { st0 with cepError := some "CEP inválido." } else st0, false)
  else
    match res with
    | CepFetch.response ok data =>
        if ok = false then
          ({ st0 with
              cepError := some "Erro ao buscar CEP. Verifique sua conexão."
              isFetchingCep := false }, true)
        else if data.erro then
          ({ st0 with
              cepError := some "CEP não encontrado."
              addr := ⟨"", "", "", ""⟩
              isFetchingCep := false }, true)
        else
          ({ st0 with
              addr := ⟨data.logradouro, data.bairro, data.localidade, data.uf⟩
              isFetchingCep := false }, true)
    | CepFetch.failure =>
        ({ st0 with
            cepError := some "Erro ao buscar CEP. Verifique sua conexão."
            isFetchingCep := false }, true)

/-! ### View Orchestrator and Session Controller (`src/App.tsx`) -/

/-- JS `x || null` on an optional string field: empty (falsy) becomes null. -/
def orNull (s : String) : Option String :=
  if s = "" then none else some s

/-- A row as sent to the `membros_pastoral` table: `id` is optional (deleted
from the payload when falsy, absent on insert), `login` is upper-cased, and
the five optional profile fields are null-coalesced. -/
structure RowPayload where
  id : Option Nat
  login : String
  photo : Option String
  fullName : String
  birthDate : String
  maritalStatus : MaritalStatus
  spouseName : Option String
  weddingDate : Option String
  phone : String
  email : String
  cep : String
  street : String
  neighborhood : String
  city : String
  state : String
  hasVehicle : Bool
  vehicleModel : Option String
  parish : String
  community : String
  sector : String
  joinDate : String
  notes : Option String
  role : Role
deriving Repr, DecidableEq

/-- The store operations the App handlers can issue against supabase. -/
inductive StoreOp
  | queryLogin (login birthDate : String)
  | selectAll
  | insertRow (p : RowPayload)
  | upsertRow (p : RowPayload)
  | deleteRow (id : Nat)
deriving Repr, DecidableEq

/-- The React state of the App component that the handlers read and write.
Log entries are (context tag, message) pairs; the timestamp prepended by
`logAndSetError` is not modelled. -/
structure AppState where
  agents : List Member
  currentView : View
  agentToEdit : Option Member
  loading : Bool
  error : Option String
  errorLog : List (String × String)
  loginError : Option String
  loggedInAgent : Option Member
deriving Repr, DecidableEq

/-- `logAndSetError` of `src/App.tsx` (lines 39-46) for a non-null message:
append a context-tagged entry to the log and set the visible error. -/
def logAndSetError (st : AppState) (context msg : String) : AppState :=
  { st with
      errorLog := st.errorLog ++ [(context, msg)]
      error := some msg }

/-- The substring `handleRegister`/`handleSaveAgent` look for to classify a
login-uniqueness violation. -/
def dupKeyNeedle : String :=
  "duplicate key value violates unique constraint \"membros_pastoral_login_key\""

/-- JS `message.includes(needle)`: the needle occurs contiguously in the
message at some offset. -/
def containsSubstr (s pat : String) : Bool :=
  (List.range (s.data.length + 1)).any fun i => pat.data.isPrefixOf (s.data.drop i)

def invalidCredentialsMsg : String :=
  "Login ou data de nascimento incorretos. Por favor, verifique os dados e tente novamente."

def dataIntegrityMsg : String :=
  "Existem múltiplos cadastros com as mesmas credenciais. Por favor, contate o administrador do sistema."

def dupLoginMsg : String := "Este login já está em uso. Por favor, escolha outro."

/-- The catch block of `handleLogin`: log under LOGIN, set the visible login
error, and the finally block clears the loading flag. -/
def loginFail (st : AppState) (msg : String) : AppState :=
  { logAndSetError st "LOGIN" msg with
      loginError := some msg
      loading := false }

/-- `handleLogin` of `src/App.tsx` (lines 134-194).  The supabase query result
is a parameter: `Except.error` is a returned `supabaseError`, `Except.ok none`
a null `data`, `Except.ok (some l)` the returned row list.  The UTC-day range
derived from `birthDate` lives inside the issued `queryLogin` operation and is
not further inspected by the handler. -/
def handleLogin (login birthDate : String) (qr : Except String (Option (List Member)))
    (st : AppState) : AppState × List StoreOp :=
  let cleanLogin := toUpperStr (trimStr login)
  let st0 := logAndSetError { st with loading := true, loginError := none }
    "LOGIN_ATTEMPT" ("Tentativa de login com: " ++ cleanLogin ++ ", " ++ birthDate)
  if cleanLogin = "" ∨ birthDate = "" then
    (loginFail st0 "Login e data de nascimento são obrigatórios.", [])
  else
    let op := StoreOp.queryLogin cleanLogin birthDate
    let st1 := logAndSetError st0 "DB_RESPONSE" "Dados retornados pelo banco de dados."
    match qr with
    | Except.error e =>
        (loginFail (logAndSetError st1 "SUPABASE_ERROR" ("Erro retornado pelo Supabase: " ++ e))
          "Ocorreu um erro ao tentar fazer login. Por favor, tente novamente.", [op])
    | Except.ok none =>
        (loginFail (logAndSetError st1 "LOGIN_FAILURE"
          "Nenhum agente encontrado com as credenciais fornecidas.") invalidCredentialsMsg, [op])
    | Except.ok (some []) =>
        (loginFail (logAndSetError st1 "LOGIN_FAILURE"
          "Nenhum agente encontrado com as credenciais fornecidas.") invalidCredentialsMsg, [op])
    | Except.ok (some [m]) =>
        ({ st1 with loggedInAgent := some m, loading := false }, [op])
    | Except.ok (some _) =>
        (loginFail (logAndSetError st1 "DATA_INTEGRITY_ERROR"
          "Inconsistência de dados: Múltiplos cadastros encontrados para o mesmo login e data de nascimento. Contate o administrador.")
          dataIntegrityMsg, [op])

/-- `fetchDataForUser` of `src/App.tsx` (lines 101-122): a coordinator reloads
the full ordered list from the store (`listR` is that query's result); an
agent sees only their own record and no query is issued. -/
def fetchDataForUser (user : Member) (listR : Except String (List Member))
    (st : AppState) : AppState × List StoreOp :=
  let st0 := { st with loading := true, error := none }
  if user.role = Role.COORDENADOR then
    match listR with
    | Except.ok l => ({ st0 with agents := l, loading := false }, [StoreOp.selectAll])
    | Except.error e =>
        ({ logAndSetError st0 "FETCH_DATA" ("Falha ao carregar dados: " ++ e) with
            loading := false }, [StoreOp.selectAll])
  else
    ({ st0 with agents := [user], loading := false }, [])

/-- The `dataToUpsert` built by `handleSaveAgent` (lines 242-253): spread of
the record with upper-cased login, null-coalesced optional fields, and the id
deleted when falsy. -/
def savePayload (a : Member) : RowPayload :=
  { id := if a.id = 0 then none else some a.id
    login := toUpperStr a.login
    photo := orNull a.photo
    fullName := a.fullName
    birthDate := a.birthDate
    maritalStatus := a.maritalStatus
    spouseName := orNull a.spouseName
    weddingDate := orNull a.weddingDate
    phone := a.phone
    email := a.email
    cep := a.cep
    street := a.street
    neighborhood := a.neighborhood
    city := a.city
    state := a.state
    hasVehicle := a.hasVehicle
    vehicleModel := orNull a.vehicleModel
    parish := a.parish
    community := a.community
    sector := a.sector
    joinDate := a.joinDate
    notes := a.notes |> orNull
    role := a.role }

/-- The `dataToInsert` built by `handleRegister` (lines 200-212): same
coalescing, but the id is destructured away and the role is forced to
AGENTE regardless of the submitted record. -/
def registerPayload (a : Member) : RowPayload :=
  { savePayload a with
      id := none
      role := Role.AGENTE }

/-- `handleRegister` of `src/App.tsx` (lines 200-233).  `insertResult` is the
supabase insert outcome (`some msg` = returned error).  A uniqueness violation
is rewritten to the dedicated login-in-use message; on success `handleLogin`
is invoked with the submitted login and birth date (`qr` being that query's
result). -/
def handleRegister (a : Member) (insertResult : Option String)
    (qr : Except String (Option (List Member))) (st : AppState) :
    AppState × List StoreOp :=
  let p := registerPayload a
  let st0 := { st with loading := true, error := none }
  match insertResult with
  | some msg =>
      let m := if containsSubstr msg dupKeyNeedle then dupLoginMsg else msg
      ({ logAndSetError st0 "REGISTER" ("Falha ao cadastrar: " ++ m ++ ".") with
          loading := false }, [StoreOp.insertRow p])
  | none =>
      let res := handleLogin a.login a.birthDate qr st0
      ({ res.1 with loading := false }, StoreOp.insertRow p :: res.2)

/-- `handleSaveAgent` of `src/App.tsx` (lines 235-278).  `upsertResult` is the
supabase upsert outcome; `listR` feeds the `fetchDataForUser` reload issued
when a coordinator saved someone else.  The finally block always returns to
the list view and clears the record under edit. -/
def handleSaveAgent (a : Member) (upsertResult : Option String)
    (listR : Except String (List Member)) (st : AppState) :
    AppState × List StoreOp :=
  match st.loggedInAgent with
  | none => (st, [])
  | some la =>
    if la.role = Role.AGENTE ∧ a.id ≠ la.id then
      (logAndSetError st "SAVE_AGENT" "Você não tem permissão para editar outros agentes.", [])
    else
      let p := savePayload a
      match upsertResult with
      | some msg =>
          let m := if containsSubstr msg dupKeyNeedle then dupLoginMsg else msg
          ({ logAndSetError st "SAVE_AGENT" ("Falha ao salvar o agente: " ++ m) with
              currentView := View.LIST
              agentToEdit := none }, [StoreOp.upsertRow p])
      | none =>
          if la.id = a.id then
            ({ st with
                loggedInAgent := some a
                currentView := View.LIST
                agentToEdit := none }, [StoreOp.upsertRow p])
          else
            let res := fetchDataForUser la listR st
            ({ res.1 with
                currentView := View.LIST
                agentToEdit := none }, StoreOp.upsertRow p :: res.2)

/-- `handleDeleteAgent` of `src/App.tsx` (lines 280-296).  `confirmed` is the
`window.confirm` answer, `deleteResult` the supabase delete outcome. -/
def handleDeleteAgent (id : Nat) (confirmed : Bool) (deleteResult : Option String)
    (st : AppState) : AppState × List StoreOp :=
  match st.loggedInAgent with
  | none =>
      (logAndSetError st "DELETE_AGENT" "Você não tem permissão para excluir agentes.", [])
  | some la =>
    if la.role ≠ Role.COORDENADOR then
      (logAndSetError st "DELETE_AGENT" "Você não tem permissão para excluir agentes.", [])
    else if confirmed then
      match deleteResult with
      | none => ({ st with agents := st.agents.filter (fun m => m.id ≠ id) },
          [StoreOp.deleteRow id])
      | some msg =>
          (logAndSetError st "DELETE_AGENT" ("Falha ao excluir o agente: " ++ msg),
            [StoreOp.deleteRow id])
    else (st, [])

/-! ### Helper lemmas about association-list lookup -/

lemma lookup_map_pair_eq_none {k msg : String} {l : List String} (h : k ∉ l) :
    (l.map (fun n => (n, msg))).lookup k = none := by
  induction l with
  | nil => rfl
  | cons a t ih =>
      have hka : k ≠ a := fun he => h (he ▸ List.mem_cons_self a t)
      have hbeq : (k == a) = false := beq_false_of_ne hka
      simp only [List.map_cons, List.lookup, hbeq]
      exact ih fun hm => h (List.mem_cons_of_mem a hm)

lemma lookup_append_of_none {α β : Type} [BEq α] {k : α} {A : List (α × β)}
    (B : List (α × β)) (h : A.lookup k = none) : (A ++ B).lookup k = B.lookup k := by
  induction A with
  | nil => rfl
  | cons p t ih =>
      rcases p with ⟨a, b⟩
      rw [List.cons_append]
      rw [List.lookup] at h ⊢
      cases hk : (k == a) with
      | true => rw [hk] at h; simp at h
      | false => rw [hk] at h; exact ih h

lemma requiredErrors_lookup_eq_none (f : FormState) (k : String)
    (hk : k ∉ requiredFields) :
    ((requiredFields.filter fun n => !fieldTruthy f n).map
      fun n => (n, "Este campo é obrigatório.")).lookup k = none :=
  lookup_map_pair_eq_none fun hm => hk (List.mem_of_mem_filter hm)

/-- The spouse/wedding content of the validator output, in closed form. -/
lemma validate_lookup_spouse_wedding (f : FormState) :
    (validate f).lookup "weddingDate" = none ∧
    (validate f).lookup "spouseName" =
      (if f.maritalStatus = some MaritalStatus.CASADO ∧ f.spouseName = "" then
        some "Nome do cônjuge é obrigatório para casados." else none) := by
  unfold validate
  constructor
  · rw [List.append_assoc,
      lookup_append_of_none _ (requiredErrors_lookup_eq_none f "weddingDate" (by decide))]
    by_cases hB : f.maritalStatus = some MaritalStatus.CASADO ∧ f.spouseName = "" <;>
      by_cases hC : f.email ≠ "" ∧ emailTest f.email = false <;>
        simp [hB, hC]
  · rw [List.append_assoc,
      lookup_append_of_none _ (requiredErrors_lookup_eq_none f "spouseName" (by decide))]
    by_cases hB : f.maritalStatus = some MaritalStatus.CASADO ∧ f.spouseName = "" <;>
      by_cases hC : f.email ≠ "" ∧ emailTest f.email = false <;>
        simp [hB, hC]

/-! ### Concrete sample values used by witnesses and counterexamples -/

/-- An all-empty married candidate record for the old MemberForm. -/
def casadoEmptyForm : FormState :=
  { fullName := "", photo := "", birthDate := "", maritalStatus := some MaritalStatus.CASADO,
    spouseName := "", phone := "", email := "", cep := "", street := "", neighborhood := "",
    city := "", state := "", parish := "", community := "", role := "", joinDate := "", notes := "" }

/-- A single (not married) candidate record for the old MemberForm. -/
def solteiroForm : FormState :=
  { casadoEmptyForm with maritalStatus := some MaritalStatus.SOLTEIRO }

/-- A sample agent record. -/
def memberEx : Member :=
  { id := 1, login := "jose.silva", photo := "", fullName := "José da Silva",
    birthDate := "1980-01-01", maritalStatus := MaritalStatus.CASADO, spouseName := "Maria",
    weddingDate := "2000-01-01", phone := "(11) 91234-5678", email := "jose@exemplo.com",
    cep := "01310-930", street := "Av. Paulista", neighborhood := "Bela Vista",
    city := "São Paulo", state := "SP", hasVehicle := true, vehicleModel := "Gol",
    parish := "N. Sra. Aparecida", community := "Centro", sector := "Pré-Matrimonial",
    joinDate := "2010-01-01", notes := "", role := Role.AGENTE }

/-- A sample coordinator record. -/
def coordEx : Member :=
  { memberEx with id := 2, login := "ana.souza", role := Role.COORDENADOR }

/-- An anonymous (logged-out) app state. -/
def appStateEx : AppState :=
  { agents := [], currentView := View.LIST, agentToEdit := none, loading := false,
    error := none, errorLog := [], loginError := none, loggedInAgent := none }

/-- An app state with an AGENTE session. -/
def agentSessionEx : AppState :=
  { appStateEx with loggedInAgent := some memberEx, agents := [memberEx] }

/-- Sample blur-handler states. -/
def cepStateAEx : CepStateA :=
  { cepError := none, addr := ⟨"Rua A", "Bairro B", "Cidade C", "SP"⟩ }

def cepStateBEx : CepStateB :=
  { cepError := none, isFetchingCep := false, addr := ⟨"Rua A", "Bairro B", "Cidade C", "SP"⟩ }

/-- A sample successful lookup body. -/
def cepDataEx : CepData :=
  { erro := false, logradouro := "Avenida Paulista", bairro := "Bela Vista",
    localidade := "São Paulo", uf := "SP" }

/-! ### Claim theorems -/

/-- C8: the phone normalizer `formatPhone` of `src/unnamed/part_003` is
idempotent: formatting an already formatted value returns it unchanged, for
every input string. -/
theorem C8_formatPhone_idempotent (x : String) :
    formatPhone (formatPhone x) = formatPhone x :=
  congrArg String.mk (formatPhoneL_idem x.data)

/-- C3 (counterexample): on a married candidate record with empty spouse name
and all other fields empty, `validate` produces the spouseName required error
but no weddingDate entry at all, refuting the claim that it produces required
errors for both spouseName and weddingDate. -/
theorem C3_weddingDate_missing_cex :
    casadoEmptyForm.maritalStatus = some MaritalStatus.CASADO ∧
    (validate casadoEmptyForm).lookup "spouseName" =
      some "Nome do cônjuge é obrigatório para casados." ∧
    (validate casadoEmptyForm).lookup "weddingDate" = none := by
  decide

/-- C3 (amended): `validate` produces no spouseName error when the marital
status is not CASADO and never produces a weddingDate entry for any record
(the validator has no weddingDate rule); when the status is CASADO and the
spouse name is empty, it produces the spouseName required error. -/
theorem C3_spouse_wedding_rules (f : FormState) :
    (validate f).lookup "weddingDate" = none ∧
    (f.maritalStatus ≠ some MaritalStatus.CASADO →
      (validate f).lookup "spouseName" = none) ∧
    (f.maritalStatus = some MaritalStatus.CASADO → f.spouseName = "" →
      (validate f).lookup "spouseName" =
        some "Nome do cônjuge é obrigatório para casados.") := by
  obtain ⟨hw, hsp⟩ := validate_lookup_spouse_wedding f
  refine ⟨hw, ?_, ?_⟩
  · intro hms
    rw [hsp, if_neg]
    intro hc
    exact hms hc.1
  · intro hms hspn
    rw [hsp, if_pos ⟨hms, hspn⟩]

/-- C3 (witness): the amended rules evaluated on concrete married and single
records. -/
theorem C3_spouse_wedding_rules_witness :
    (validate solteiroForm).lookup "spouseName" = none ∧
    (validate casadoEmptyForm).lookup "spouseName" =
      some "Nome do cônjuge é obrigatório para casados." :=
  ⟨(C3_spouse_wedding_rules solteiroForm).2.1 (by decide),
   (C3_spouse_wedding_rules casadoEmptyForm).2.2 (by decide) (by decide)⟩

/-- C4: in `src/components/MemberForm.tsx`, `handleSubmit` passes the record
to `onSave` exactly when the freshly computed validation mapping is empty;
in `src/unnamed/part_003`, `handleSubmit` produces an empty mapping and always
invokes `onSave`, so the property holds vacuously there. -/
theorem C4_submit_only_when_valid (f : FormState) (a : Member) :
    ((handleSubmit f).isSome ↔ validate f = []) ∧
    handleSubmitP3 a = (a, []) := by
  constructor
  · constructor
    · intro h
      by_contra hne
      have hlen : (validate f).length ≠ 0 := fun h0 => hne (List.length_eq_zero.mp h0)
      simp [handleSubmit, hlen] at h
    · intro h
      simp [handleSubmit, h]
  · rfl

/-- C4 (witness): the empty married record is rejected, while the part_003
submit always passes the record on. -/
theorem C4_submit_only_when_valid_witness :
    (handleSubmit casadoEmptyForm).isSome = false ∧ handleSubmitP3 memberEx = (memberEx, []) := by
  have h := C4_submit_only_when_valid casadoEmptyForm memberEx
  refine ⟨?_, h.2⟩
  by_cases hv : (handleSubmit casadoEmptyForm).isSome
  · exact absurd (h.1.mp hv) (by decide)
  · simpa using hv

/-- C5 (counterexample): blurring the postal-code field of the part_003 form
with the three-digit value 123 issues no lookup but does set an error on the
postal-code field, so the handler is not a no-op as claimed. -/
theorem C5_short_cep_sets_error_cex :
    (digitsOnly "123").length ≠ 8 ∧ cepStateBEx.cepError = none ∧
    handleCepBlurP3 "123" CepFetch.failure cepStateBEx =
      ({ cepStateBEx with cepError := some "CEP inválido." }, false) := by
  decide

/-- C5 (amended): for a blur whose digit-only form does not have exactly 8
digits, neither handler issues a lookup and both leave the address fields
unchanged; the MemberForm.tsx handler is a complete no-op, while the part_003
handler clears the postal-code error and, when the digit form is nonempty,
sets the invalid-CEP error. -/
theorem C5_short_cep_no_lookup (raw : String) (res : CepFetch)
    (stA : CepStateA) (stB : CepStateB) (h : (digitsOnly raw).length ≠ 8) :
    handleCepBlur raw res stA = (stA, false) ∧
    (handleCepBlurP3 raw res stB).2 = false ∧
    (handleCepBlurP3 raw res stB).1.addr = stB.addr ∧
    (handleCepBlurP3 raw res stB).1.isFetchingCep = stB.isFetchingCep ∧
    (handleCepBlurP3 raw res stB).1.cepError =
      (if 0 < (digitsOnly raw).length then some "CEP inválido." else none) := by
  refine ⟨?_, ?_⟩
  · simp only [handleCepBlur]
    rw [if_pos h]
  · simp only [handleCepBlurP3]
    rw [if_pos h]
    by_cases h0 : 0 < (digitsOnly raw).length
    · rw [if_pos h0, if_pos h0]
      exact ⟨rfl, rfl, rfl, rfl⟩
    · rw [if_neg h0, if_neg h0]
      exact ⟨rfl, rfl, rfl, rfl⟩

/-- C5 (witness): the amended behaviour at a three-digit and an empty blur. -/
theorem C5_short_cep_no_lookup_witness :
    handleCepBlur "12a" CepFetch.failure cepStateAEx = (cepStateAEx, false) ∧
    (handleCepBlurP3 "" CepFetch.failure cepStateBEx).1.cepError = none := by
  have h1 := C5_short_cep_no_lookup "12a" CepFetch.failure cepStateAEx cepStateBEx (by decide)
  have h2 := C5_short_cep_no_lookup "" CepFetch.failure cepStateAEx cepStateBEx (by decide)
  refine ⟨h1.1, ?_⟩
  rw [h2.2.2.2.2]
  decide

/-- C6: for an 8-digit postal-code blur, in both handler revisions a
not-found body clears the four address fields and sets the not-found error, a
successful body overwrites the four fields with the resolved values, and a
transport failure sets the generic lookup error while leaving the address
fields untouched. -/
theorem C6_cep_lookup_outcomes (raw : String) (stA : CepStateA) (stB : CepStateB)
    (h : (digitsOnly raw).length = 8) :
    (∀ ok d, d.erro = true →
      handleCepBlur raw (CepFetch.response ok d) stA =
        ({ cepError := some "CEP não encontrado.", addr := ⟨"", "", "", ""⟩ }, true)) ∧
    (∀ ok d, d.erro = false →
      handleCepBlur raw (CepFetch.response ok d) stA =
        ({ cepError := none, addr := ⟨d.logradouro, d.bairro, d.localidade, d.uf⟩ }, true)) ∧
    (handleCepBlur raw CepFetch.failure stA =
      ({ stA with cepError := some "Erro ao buscar CEP." }, true)) ∧
    (∀ d, d.erro = true →
      handleCepBlurP3 raw (CepFetch.response true d) stB =
        ({ stB with
            cepError := some "CEP não encontrado."
            addr := ⟨"", "", "", ""⟩
            isFetchingCep := false }, true)) ∧
    (∀ d, d.erro = false →
      handleCepBlurP3 raw (CepFetch.response true d) stB =
        ({ stB with
            cepError := none
            addr := ⟨d.logradouro, d.bairro, d.localidade, d.uf⟩
            isFetchingCep := false }, true)) ∧
    (handleCepBlurP3 raw CepFetch.failure stB =
      ({ stB with
          cepError := some "Erro ao buscar CEP. Verifique sua conexão."
          isFetchingCep := false }, true)) := by
  have hc : ¬ ((digitsOnly raw).length ≠ 8) := fun hne => hne h
  refine ⟨?_, ?_, ?_, ?_, ?_, ?_⟩
  · intro ok d hd
    simp only [handleCepBlur]
    rw [if_neg hc]
    simp [hd]
  · intro ok d hd
    simp only [handleCepBlur]
    rw [if_neg hc]
    simp [hd]
  · simp only [handleCepBlur]
    rw [if_neg hc]
  · intro d hd
    simp only [handleCepBlurP3]
    rw [if_neg hc]
    simp [hd]
  · intro d hd
    simp only [handleCepBlurP3]
    rw [if_neg hc]
    simp [hd]
  · simp only [handleCepBlurP3]
    rw [if_neg hc]

/-- C6 (witness): the three outcomes evaluated on the concrete postal code
01310-930. -/
theorem C6_cep_lookup_outcomes_witness :
    handleCepBlurP3 "01310-930" (CepFetch.response true cepDataEx) cepStateBEx =
      ({ cepStateBEx with
          cepError := none
          addr := ⟨"Avenida Paulista", "Bela Vista", "São Paulo", "SP"⟩
          isFetchingCep := false }, true) ∧
    handleCepBlur "01310-930" CepFetch.failure cepStateAEx =
      ({ cepStateAEx with cepError := some "Erro ao buscar CEP." }, true) := by
  have h := C6_cep_lookup_outcomes "01310-930" cepStateAEx cepStateBEx (by decide)
  exact ⟨h.2.2.2.2.1 cepDataEx rfl, h.2.2.1⟩

/-- C1: with nonempty credentials, `handleLogin` establishes no session and
reports invalid credentials when the query matches no record (null or empty
data), adopts the unique matching record as the session identity when exactly
one matches, and establishes no session while reporting the data-integrity
error when two or more match. -/
theorem C1_login_trichotomy (login birthDate : String)
    (qr : Except String (Option (List Member))) (st : AppState)
    (hl : toUpperStr (trimStr login) ≠ "") (hb : birthDate ≠ "") :
    ((qr = Except.ok none ∨ qr = Except.ok (some [])) →
      (handleLogin login birthDate qr st).1.loggedInAgent = st.loggedInAgent ∧
      (handleLogin login birthDate qr st).1.loginError = some invalidCredentialsMsg) ∧
    (∀ m, qr = Except.ok (some [m]) →
      (handleLogin login birthDate qr st).1.loggedInAgent = some m ∧
      (handleLogin login birthDate qr st).1.loginError = none) ∧
    (∀ m₁ m₂ rest, qr = Except.ok (some (m₁ :: m₂ :: rest)) →
      (handleLogin login birthDate qr st).1.loggedInAgent = st.loggedInAgent ∧
      (handleLogin login birthDate qr st).1.loginError = some dataIntegrityMsg) := by
  have hcond : ¬ (toUpperStr (trimStr login) = "" ∨ birthDate = "") := by
    rintro (h | h)
    · exact hl h
    · exact hb h
  refine ⟨?_, ?_, ?_⟩
  · rintro (rfl | rfl) <;>
      simp [handleLogin, hcond, loginFail, logAndSetError]
  · rintro m rfl
    simp [handleLogin, hcond, loginFail, logAndSetError]
  · rintro m₁ m₂ rest rfl
    simp [handleLogin, hcond, loginFail, logAndSetError]

/-- C1 (witness): the three branches at concrete query results. -/
theorem C1_login_trichotomy_witness :
    (handleLogin "jose.silva" "1980-01-01" (Except.ok (some [memberEx]))
      appStateEx).1.loggedInAgent = some memberEx ∧
    (handleLogin "jose.silva" "1980-01-01" (Except.ok (some []))
      appStateEx).1.loggedInAgent = none ∧
    (handleLogin "jose.silva" "1980-01-01" (Except.ok (some [memberEx, coordEx]))
      appStateEx).1.loginError = some dataIntegrityMsg := by
  have hone := C1_login_trichotomy "jose.silva" "1980-01-01"
    (Except.ok (some [memberEx])) appStateEx (by decide) (by decide)
  have hzero := C1_login_trichotomy "jose.silva" "1980-01-01"
    (Except.ok (some [])) appStateEx (by decide) (by decide)
  have htwo := C1_login_trichotomy "jose.silva" "1980-01-01"
    (Except.ok (some [memberEx, coordEx])) appStateEx (by decide) (by decide)
  exact ⟨(hone.2.1 memberEx rfl).1, (hzero.1 (Or.inr rfl)).1,
    (htwo.2.2 memberEx coordEx [] rfl).2⟩

/-- C2: with an AGENTE session, saving a record whose id differs from the
session identity and deleting any id both stop at the client-side permission
check: the only state change is the logged permission error, and the returned
store-operation list is empty (the store is never contacted). -/
theorem C2_agent_permission_guard (st : AppState) (la a : Member)
    (upsertR : Option String) (listR : Except String (List Member))
    (id : Nat) (confirmed : Bool) (delR : Option String)
    (hs : st.loggedInAgent = some la) (hr : la.role = Role.AGENTE) :
    (a.id ≠ la.id →
      handleSaveAgent a upsertR listR st =
        (logAndSetError st "SAVE_AGENT"
          "Você não tem permissão para editar outros agentes.", [])) ∧
    handleDeleteAgent id confirmed delR st =
      (logAndSetError st "DELETE_AGENT"
        "Você não tem permissão para excluir agentes.", []) := by
  constructor
  · intro hid
    simp only [handleSaveAgent, hs]
    rw [if_pos ⟨hr, hid⟩]
  · have hnc : la.role ≠ Role.COORDENADOR := by
      rw [hr]
      intro hco
      exact Role.noConfusion hco
    simp only [handleDeleteAgent, hs]
    rw [if_pos hnc]

/-- C2 (witness): the guard evaluated for the sample AGENTE session. -/
theorem C2_agent_permission_guard_witness :
    (handleSaveAgent coordEx none (Except.ok []) agentSessionEx).2 = [] ∧
    (handleDeleteAgent 2 true none agentSessionEx).2 = [] := by
  have h := C2_agent_permission_guard agentSessionEx memberEx coordEx none
    (Except.ok []) 2 true none rfl rfl
  rw [h.1 (by decide), h.2]
  exact ⟨rfl, rfl⟩

/-- C7: `handleRegister` forces the inserted row's role to AGENTE regardless
of the submitted record; a store failure containing the login-uniqueness
needle leaves the session untouched and surfaces the dedicated
login-already-in-use message; and on a successful insert the result is
exactly `handleLogin` invoked with the just-registered login and birth
date. -/
theorem C7_register_flow (a : Member) (st : AppState) (insertR : Option String)
    (qr : Except String (Option (List Member))) :
    (registerPayload a).role = Role.AGENTE ∧
    (∀ msg, insertR = some msg → containsSubstr msg dupKeyNeedle = true →
      (handleRegister a insertR qr st).1.loggedInAgent = st.loggedInAgent ∧
      (handleRegister a insertR qr st).1.error =
        some ("Falha ao cadastrar: " ++ dupLoginMsg ++ ".")) ∧
    (insertR = none →
      handleRegister a insertR qr st =
        ({ (handleLogin a.login a.birthDate qr
              { st with loading := true, error := none }).1 with loading := false },
          StoreOp.insertRow (registerPayload a) ::
            (handleLogin a.login a.birthDate qr
              { st with loading := true, error := none }).2)) := by
  refine ⟨rfl, ?_, ?_⟩
  · rintro msg rfl hdup
    simp [handleRegister, hdup, logAndSetError]
  · rintro rfl
    rfl

/-- C7 (witness): the duplicate-key branch and the forced role at a concrete
registration. -/
theorem C7_register_flow_witness :
    (registerPayload coordEx).role = Role.AGENTE ∧
    (handleRegister coordEx (some dupKeyNeedle) (Except.ok none) appStateEx).1.loggedInAgent
      = none ∧
    (handleRegister coordEx (some dupKeyNeedle) (Except.ok none) appStateEx).1.error =
      some ("Falha ao cadastrar: " ++ dupLoginMsg ++ ".") := by
  have h := C7_register_flow coordEx appStateEx (some dupKeyNeedle) (Except.ok none)
  have hd := h.2.1 dupKeyNeedle rfl (by decide)
  exact ⟨h.1, hd.1, hd.2⟩

/-- C9: after a successful upsert, saving the session's own record adopts the
local copy as the session identity and issues no reload (the upsert is the
only store operation), while a coordinator saving another record issues the
reload query and takes the list from the store response, leaving the session
identity untouched. -/
theorem C9_save_reconciliation (a : Member) (st : AppState) (la : Member)
    (listR : Except String (List Member)) (hs : st.loggedInAgent = some la) :
    (a.id = la.id →
      handleSaveAgent a none listR st =
        ({ st with
            loggedInAgent := some a
            currentView := View.LIST
            agentToEdit := none }, [StoreOp.upsertRow (savePayload a)])) ∧
    (a.id ≠ la.id → la.role = Role.COORDENADOR →
      (handleSaveAgent a none listR st).2 =
        [StoreOp.upsertRow (savePayload a), StoreOp.selectAll] ∧
      (∀ l, listR = Except.ok l → (handleSaveAgent a none listR st).1.agents = l) ∧
      (handleSaveAgent a none listR st).1.loggedInAgent = some la) := by
  constructor
  · intro hid
    simp only [handleSaveAgent, hs]
    rw [if_neg (fun hc => hc.2 hid), if_pos hid.symm]
  · intro hid hrole
    have hguard : ¬ (la.role = Role.AGENTE ∧ a.id ≠ la.id) := by
      rintro ⟨hag, -⟩
      rw [hrole] at hag
      exact Role.noConfusion hag
    have hid2 : ¬ (la.id = a.id) := fun hc => hid hc.symm
    simp only [handleSaveAgent, hs]
    rw [if_neg hguard]
    cases listR with
    | ok l =>
        refine ⟨?_, ?_, ?_⟩ <;>
          simp [hid2, fetchDataForUser, hrole, hs]
    | error e =>
        refine ⟨?_, ?_, ?_⟩ <;>
          simp [hid2, fetchDataForUser, hrole, hs, logAndSetError]

/-- C9 (witness): the self-save and coordinator branches at concrete
records. -/
theorem C9_save_reconciliation_witness :
    (handleSaveAgent memberEx none (Except.ok []) agentSessionEx).1.loggedInAgent
      = some memberEx ∧
    (handleSaveAgent memberEx none (Except.ok []) agentSessionEx).2 =
      [StoreOp.upsertRow (savePayload memberEx)] := by
  have h := (C9_save_reconciliation memberEx agentSessionEx memberEx
    (Except.ok []) rfl).1 rfl
  rw [h]
  exact ⟨rfl, rfl⟩

/-- C10: once past the permission check, `handleSaveAgent` always finishes by
returning to the list view and clearing the record under edit, whether the
upsert succeeded or failed; and on failure the session identity and the
loaded record list are left unchanged. -/
theorem C10_save_always_closes_form (a : Member) (st : AppState) (la : Member)
    (upsertR : Option String) (listR : Except String (List Member))
    (hs : st.loggedInAgent = some la)
    (hperm : ¬ (la.role = Role.AGENTE ∧ a.id ≠ la.id)) :
    (handleSaveAgent a upsertR listR st).1.currentView = View.LIST ∧
    (handleSaveAgent a upsertR listR st).1.agentToEdit = none ∧
    (∀ msg, upsertR = some msg →
      (handleSaveAgent a upsertR listR st).1.loggedInAgent = st.loggedInAgent ∧
      (handleSaveAgent a upsertR listR st).1.agents = st.agents) := by
  simp only [handleSaveAgent, hs]
  rw [if_neg hperm]
  cases upsertR with
  | some msg =>
      refine ⟨rfl, rfl, ?_⟩
      rintro m hm
      simp [logAndSetError, hs]
  | none =>
      refine ⟨?_, ?_, ?_⟩
      · by_cases hid : la.id = a.id
        · rw [if_pos hid]
        · rw [if_neg hid]
      · by_cases hid : la.id = a.id
        · rw [if_pos hid]
        · rw [if_neg hid]
      · rintro m hm
        exact Option.noConfusion hm

/-- C10 (witness): the failing-upsert case at a concrete self-save. -/
theorem C10_save_always_closes_form_witness :
    (handleSaveAgent memberEx (some "boom") (Except.ok []) agentSessionEx).1.currentView
      = View.LIST ∧
    (handleSaveAgent memberEx (some "boom") (Except.ok []) agentSessionEx).1.agentToEdit
      = none ∧
    (handleSaveAgent memberEx (some "boom") (Except.ok []) agentSessionEx).1.loggedInAgent
      = some memberEx := by
  have h := C10_save_always_closes_form memberEx agentSessionEx memberEx
    (some "boom") (Except.ok []) rfl (by decide)
  exact ⟨h.1, h.2.1, ((h.2.2 "boom" rfl).1).trans rfl⟩

end PastoralFamiliar
